import Mathlib

/-!
Verification development for the covid-19-data vaccination ETL core.

The Python sources under scripts/src/cowidev/vax are embedded shallowly:
pandas data frames become lists of records, nullable numeric columns become
Option Int (a pandas NaN compares as false against any number, which the
Option-valued comparison helpers below reproduce), and code that raises
becomes Except-valued functions.
-/

/-- Lexicographic strict comparison of character lists; kernel-reducible
stand-in for the string order used when the Python code compares or sorts
ISO dates. -/
def charListLt : List Char → List Char → Bool
  | [], [] => false
  | [], _ :: _ => true
  | _ :: _, [] => false
  | a :: as, b :: bs => if a < b then true else if b < a then false else charListLt as bs

/-- Strict lexicographic order on strings. -/
def strLt (a b : String) : Bool := charListLt a.data b.data

/-- Reflexive lexicographic order on strings. -/
def strLe (a b : String) : Bool := !(strLt b a)

/-- One vaccination observation: one location, one date, cumulative counts.
Absent numeric fields are modelled as none. -/
structure Observation where
  date : String
  total_vaccinations : Option Int
  people_vaccinated : Option Int
  people_fully_vaccinated : Option Int
  total_boosters : Option Int
  vaccine : String
  source_url : String
deriving Repr, DecidableEq

/-- Non-regression on one cumulative field: vacuously true when either side
is absent. -/
def fieldOk : Option Int → Option Int → Bool
  | some x, some y => decide (x ≤ y)
  | _, _ => true

/-- Non-regression between two adjacent observations, field by field. -/
def obsLe (a b : Observation) : Bool :=
  fieldOk a.total_vaccinations b.total_vaccinations &&
  fieldOk a.people_vaccinated b.people_vaccinated &&
  fieldOk a.people_fully_vaccinated b.people_fully_vaccinated &&
  fieldOk a.total_boosters b.total_boosters

/-- Modelled from the spec: the Incremental Merge Engine (spec section 4.3) is
not among the supplied source files — only its callers are, through the
increment helper of cowidev.vax.utils.incremental.  Upsert-by-date into a
date-ascending series: replace the entry with the same date if one exists,
otherwise insert preserving ascending date order. -/
def upsert : List Observation → Observation → List Observation
  | [], o => [o]
  | r :: rest, o =>
    if strLt o.date r.date then o :: r :: rest
    else if o.date = r.date then o :: rest
    else r :: upsert rest o

/-- Modelled from the spec: after insertion the non-regression invariant is
re-checked only against the immediate predecessor and successor of the
inserted date. -/
def checkAround : List Observation → String → Bool
  | [], _ => true
  | [_], _ => true
  | a :: b :: rest, d =>
    (if a.date = d ∨ b.date = d then obsLe a b else true) && checkAround (b :: rest) d

inductive MergeError where
  | regression
deriving Repr, DecidableEq

/-- Modelled from the spec: merge one observation into a series; a violation
of the non-regression invariant rejects the merge. -/
def merge (s : List Observation) (o : Observation) : Except MergeError (List Observation) :=
  if checkAround (upsert s o) o.date then Except.ok (upsert s o)
  else Except.error MergeError.regression

def mergeObsEx : Observation :=
  ⟨"2021-01-04", some 100, some 60, some 40, some 0, "Pfizer/BioNTech", "u"⟩

def mergeSeriesEx : List Observation :=
  [⟨"2021-01-04", some 90, some 55, some 35, some 0, "Pfizer/BioNTech", "u"⟩]

/-! ## Peru batch pipeline (scripts/src/cowidev/vax/batch/peru.py) -/

/-- One row of the Peru source table after pipe_rename_columns: reporting
date, dose number, and count of doses administered that day. -/
structure PeruRec where
  date : String
  dosis : Nat
  n_reg : Int
deriving Repr, DecidableEq

/-- Value of one grouped-and-pivoted cell in Peru.pipe_format: the sum of
n_reg over records of one date and one dose number, a missing cell filled
as 0 by the fillna step. -/
def doseSum (recs : List PeruRec) (d : String) (k : Nat) : Int :=
  ((recs.filter (fun r => r.date = d && r.dosis = k)).map PeruRec.n_reg).sum

/-- Insertion step of an ascending insertion sort on strings. -/
def insertSorted (d : String) : List String → List String
  | [] => [d]
  | x :: xs => if strLe d x then d :: x :: xs else x :: insertSorted d xs

/-- Ascending sort on strings, the order pandas uses for an ISO-date index. -/
def sortStrings (l : List String) : List String := l.foldr insertSorted []

/-- Distinct reporting dates of the Peru table, ascending — the pivot index
after sort_values. -/
def peruDates (recs : List PeruRec) : List String :=
  sortStrings (recs.map PeruRec.date).dedup

/-- Cumulative sum for dose number k down to row index i of the
date-ascending pivot table: the cumsum step of Peru.pipe_format. -/
def peruCum (recs : List PeruRec) (i : Nat) (k : Nat) : Int :=
  (((peruDates recs).take (i + 1)).map (fun d => doseSum recs d k)).sum

/-- One output row of Peru.pipe_format. -/
structure PeruRow where
  date : String
  people_vaccinated : Int
  people_fully_vaccinated : Int
  total_boosters : Int
deriving Repr, DecidableEq

/-- Peru.pipe_format: group by date and dose, pivot to one row per date with
dose 1 as people_vaccinated, dose 2 as people_fully_vaccinated, dose 3 as
total_boosters, fill missing cells with 0, sort by date, cumulative-sum down
the rows. -/
def pipe_format (recs : List PeruRec) : List PeruRow :=
  (List.range (peruDates recs).length).map (fun i =>
    ⟨(peruDates recs).getD i "", peruCum recs i 1, peruCum recs i 2, peruCum recs i 3⟩)

/-- One row of the Peru series after pipe_total_vaccinations. -/
structure PeruRowT where
  date : String
  people_vaccinated : Int
  people_fully_vaccinated : Int
  total_boosters : Int
  total_vaccinations : Int
deriving Repr, DecidableEq

/-- Peru.pipe_total_vaccinations: total_vaccinations is assigned the sum of
the three cumulative dose columns. -/
def pipe_total_vaccinations (rows : List PeruRow) : List PeruRowT :=
  rows.map (fun r =>
    ⟨r.date, r.people_vaccinated, r.people_fully_vaccinated, r.total_boosters,
      r.people_vaccinated + r.people_fully_vaccinated + r.total_boosters⟩)

/-- The Peru cumulative series: pipe_format followed by
pipe_total_vaccinations, as chained in Peru.pipeline. -/
def peruSeries (recs : List PeruRec) : List PeruRowT :=
  pipe_total_vaccinations (pipe_format recs)

/-- Concrete Peru input used by the C2 witness. -/
def peruRecsEx : List PeruRec :=
  [⟨"2021-02-02", 1, 5⟩, ⟨"2021-02-01", 1, 3⟩, ⟨"2021-02-01", 2, 2⟩, ⟨"2021-02-02", 3, 1⟩]

/-! ## Peru age pipeline checks (Peru.pipe_age_checks) -/

/-- One row of the Peru age table handed to pipeline_age. -/
structure PeruAgeRow where
  location : String
  sunday : String
  people_vaccinated_per_hundred : Option ℚ
  people_fully_vaccinated_per_hundred : Option ℚ
deriving Repr, DecidableEq

/-- A pandas comparison col greater than 100: false on a missing value. -/
def gt100 : Option ℚ → Bool
  | some v => decide (100 < v)
  | none => false

/-- Minimum of a list of strings, as Series.min. -/
def strMinList : List String → Option String
  | [] => none
  | x :: xs => some (xs.foldl (fun a b => if strLe a b then a else b) x)

/-- Maximum of a list of strings, as Series.max. -/
def strMaxList : List String → Option String
  | [] => none
  | x :: xs => some (xs.foldl (fun a b => if strLe a b then b else a) x)

/-- The date-range condition of pipe_age_checks on a non-empty table: the
earliest sunday is before 2021-02-08, or the latest sunday is after the
current Lima date, passed in as today.  pipe_age_checks consults it only
after ruling out the empty table, where the Python comparison of the nan
minimum would raise instead, so the none branches here are unreachable. -/
def sundayBad (today : String) (rows : List PeruAgeRow) : Bool :=
  (match strMinList (rows.map PeruAgeRow.sunday) with
   | some m => strLt m "2021-02-08"
   | none => false) ||
  (match strMaxList (rows.map PeruAgeRow.sunday) with
   | some m => strLt today m
   | none => false)

inductive PeruAgeError where
  | pctBound
  | typeError
  | dateRange
  | badLocation
deriving Repr, DecidableEq

/-- Peru.pipe_age_checks: raise on a per-hundred value above 100, then on an
out-of-range sunday date, then on a location other than Peru; otherwise the
table passes through unchanged.  The current Lima date is the today
argument.  On an empty table the percentage checks are vacuous but the date
check crashes: the pandas minimum of an empty column is nan and comparing
nan with the date string raises a TypeError, modelled by the typeError
branch. -/
def pipe_age_checks (today : String) (rows : List PeruAgeRow) :
    Except PeruAgeError (List PeruAgeRow) :=
  if rows.any (fun r => gt100 r.people_vaccinated_per_hundred) then
    Except.error PeruAgeError.pctBound
  else if rows.any (fun r => gt100 r.people_fully_vaccinated_per_hundred) then
    Except.error PeruAgeError.pctBound
  else if rows = [] then
    Except.error PeruAgeError.typeError
  else if sundayBad today rows then
    Except.error PeruAgeError.dateRange
  else if !(rows.all (fun r => r.location = "Peru")) then
    Except.error PeruAgeError.badLocation
  else
    Except.ok rows

/-- Concrete age rows falsifying C9: percentages in bounds, location not
Peru. -/
def peruAgeRowsBad : List PeruAgeRow :=
  [⟨"Bolivia", "2021-03-07", some 50, some 50⟩]

/-- Concrete age rows for the C9 witness: all checks pass. -/
def peruAgeRowsOk : List PeruAgeRow :=
  [⟨"Peru", "2021-03-07", some 50, some 50⟩]

/-! ## WHO cross-country feed (scripts/src/cowidev/vax/incremental/who.py) -/

/-- One row of the WHO vaccination-data feed, with the columns the pipeline
touches.  Nullable numeric columns are Option Int, the VACCINES_USED string
is Option String. -/
structure WhoRow where
  country : String
  date_updated : String
  data_source : String
  total_vaccinations : Option Int
  persons_vaccinated_1plus_dose : Option Int
  persons_fully_vaccinated : Option Int
  vaccines_used : Option String
deriving Repr, DecidableEq

/-- Distinct reporting dates of one country in the feed. -/
def countryDates (rows : List WhoRow) (c : String) : List String :=
  ((rows.filter (fun r => r.country = c)).map WhoRow.date_updated).dedup

/-- Count of distinct reporting dates per distinct country: groupby COUNTRY
followed by DATE_UPDATED nunique. -/
def perCountryNunique (rows : List WhoRow) : List Nat :=
  ((rows.map WhoRow.country).dedup).map (fun c => (countryDates rows c).length)

inductive WhoCheckError where
  | tooManyRows
  | multipleDates
deriving Repr, DecidableEq

/-- WHO.pipe_checks: reject a feed of more than 300 rows; then pass only if
the per-country counts of distinct reporting dates have exactly one distinct
value and that value is 1, rejecting otherwise. -/
def pipe_checks (rows : List WhoRow) : Except WhoCheckError (List WhoRow) :=
  if 300 < rows.length then Except.error WhoCheckError.tooManyRows
  else if (perCountryNunique rows).dedup.length = 1 then
    if (perCountryNunique rows).dedup.headD 0 ≠ 1 then
      Except.error WhoCheckError.multipleDates
    else Except.ok rows
  else Except.error WhoCheckError.multipleDates

/-- A pandas greater-or-equal between nullable columns: false when either
side is missing, as NaN comparisons are in pandas. -/
def geOpt : Option Int → Option Int → Bool
  | some a, some b => decide (b ≤ a)
  | _, _ => false

/-- First mask of WHO.pipe_filter_entries: total at least first-dose, or the
first-dose count is missing. -/
def mask1 (r : WhoRow) : Bool :=
  geOpt r.total_vaccinations r.persons_vaccinated_1plus_dose ||
    r.persons_vaccinated_1plus_dose.isNone

/-- Second mask: total at least fully-vaccinated, or the fully-vaccinated
count is missing. -/
def mask2 (r : WhoRow) : Bool :=
  geOpt r.total_vaccinations r.persons_fully_vaccinated ||
    r.persons_fully_vaccinated.isNone

/-- Third mask: first-dose at least fully-vaccinated, or either of the two
is missing. -/
def mask3 (r : WhoRow) : Bool :=
  geOpt r.persons_vaccinated_1plus_dose r.persons_fully_vaccinated ||
    r.persons_vaccinated_1plus_dose.isNone || r.persons_fully_vaccinated.isNone

/-- WHO.pipe_filter_entries given the canonical country list: keep REPORTING
rows that satisfy all three masks and whose country is canonical. -/
def pipe_filter_entries (countries : List String) (rows : List WhoRow) : List WhoRow :=
  ((rows.filter (fun r => r.data_source = "REPORTING")).filter
      (fun r => mask1 r && mask2 r && mask3 r)).filter
    (fun r => countries.contains r.country)

/-- Split a character list at commas. -/
def splitCommaChars : List Char → List (List Char)
  | [] => [[]]
  | c :: rest =>
    if c = ',' then [] :: splitCommaChars rest
    else
      match splitCommaChars rest with
      | [] => [[c]]
      | g :: gs => (c :: g) :: gs

/-- Strip spaces from both ends of a character list. -/
def trimChars (l : List Char) : List Char :=
  ((l.dropWhile (fun c => c = ' ')).reverse.dropWhile (fun c => c = ' ')).reverse

/-- Split a string on commas and strip each piece, as the per-row token
extraction of WHO.pipe_vaccine_checks does. -/
def splitStrip (s : String) : List String :=
  (splitCommaChars s.data).map (fun l => String.mk (trimChars l))

/-- All vaccine tokens mentioned by non-null VACCINES_USED cells. -/
def whoTokens (rows : List WhoRow) : List String :=
  (rows.filterMap WhoRow.vaccines_used).flatMap splitStrip

/-- Look up a raw token among the keys of a raw-to-canonical mapping. -/
def lookupRaw (mapping : List (String × String)) (t : String) : Option String :=
  (mapping.find? (fun p => p.1 = t)).map Prod.snd

/-- The distinct feed tokens absent from the mapping keys. -/
def whoUnknown (mapping : List (String × String)) (rows : List WhoRow) : List String :=
  (whoTokens rows).dedup.filter (fun t => (lookupRaw mapping t).isNone)

inductive WhoVaxError where
  | typeError
  | unknown (tokens : List String)
deriving Repr, DecidableEq

/-- WHO.pipe_vaccine_checks: fail carrying the unknown tokens when some
mentioned token is not a key of the raw-to-canonical mapping.  When every
VACCINES_USED cell is null the Python sums an empty series to the integer 0
and set(0) raises a TypeError, modelled by the typeError branch. -/
def pipe_vaccine_checks (mapping : List (String × String)) (rows : List WhoRow) :
    Except WhoVaxError (List WhoRow) :=
  if rows.filterMap WhoRow.vaccines_used = [] then Except.error WhoVaxError.typeError
  else if whoUnknown mapping rows = [] then Except.ok rows
  else Except.error (WhoVaxError.unknown (whoUnknown mapping rows))

/-- The country-keyed manual override table ADDITIONAL_VACCINES_USED of
who.py. -/
def additionalVaccinesUsed : List (String × List String) :=
  [("Cayman Islands", ["Oxford/AstraZeneca"]), ("Gambia", ["Johnson&Johnson"])]

/-- Split a string on commas without stripping, as row.VACCINES_USED.split
in WHO._map_vaccines_func. -/
def splitComma (s : String) : List String :=
  (splitCommaChars s.data).map String.mk

/-- Replace each raw token by its canonical name when the mapping knows it,
as Series.replace does. -/
def replaceTokens (mapping : List (String × String)) (tokens : List String) : List String :=
  tokens.map (fun t => (lookupRaw mapping t).getD t)

/-- True iff no listed vaccine belongs to the one-dose set: the only_2doses
flag of WHO._map_vaccines_func. -/
def only2doses (oneDose : List String) (vaccines : List String) : Bool :=
  vaccines.all (fun v => !(oneDose.contains v))

/-- WHO._map_vaccines_func: split the raw VACCINES_USED cell, replace raw
names by canonical ones, compute only_2doses from the replaced list, then
append the manual overrides for the row country, and render the sorted
distinct names joined by a comma and space.  Returns none when the cell is
null, where the Python raises. -/
def map_vaccines_func (mapping : List (String × String)) (oneDose : List String)
    (overrides : List (String × List String)) (country : String)
    (vaccines_used : Option String) : Option (String × Bool) :=
  match vaccines_used with
  | none => none
  | some s =>
    let vaccines := replaceTokens mapping (splitComma s)
    let flag := only2doses oneDose vaccines
    let withOv :=
      match overrides.find? (fun p => p.1 = country) with
      | some p => vaccines ++ p.2
      | none => vaccines
    some (String.intercalate ", " (sortStrings withOv.dedup), flag)

/-- The vaccine set a row reports after the override union, before
rendering: replaced tokens plus the location overrides. -/
def overriddenVaccines (mapping : List (String × String))
    (overrides : List (String × List String)) (country : String) (s : String) : List String :=
  match overrides.find? (fun p => p.1 = country) with
  | some p => replaceTokens mapping (splitComma s) ++ p.2
  | none => replaceTokens mapping (splitComma s)

/-- Example mapping for the C5 counterexample, one known WHO raw name. -/
def whoVaxMappingEx : List (String × String) :=
  [("Pfizer BioNTech - Comirnaty", "Pfizer/BioNTech")]

/-- The one-dose product list as france.py records it. -/
def oneDoseEx : List String := ["Johnson&Johnson"]

/-- Example mapping for the C3 witness, as in the spec example. -/
def whoMappingEx : List (String × String) := [("PFIZER", "Pfizer/BioNTech")]

/-- Example WHO row mentioning one known and one unknown token. -/
def whoRowVaxEx : WhoRow :=
  ⟨"X", "2021-07-01", "REPORTING", none, none, none, some "PFIZER,MODERNA"⟩

/-- Example row for the C4 counterexample: the total is null while the
first-dose count is reported. -/
def whoRowNullTotal : WhoRow :=
  ⟨"X", "2021-07-01", "REPORTING", none, some 5, none, none⟩

/-- Example row for the C4 witness: both person counts are null. -/
def whoRowNullPersons : WhoRow :=
  ⟨"France", "2021-07-01", "REPORTING", some 10, none, none, none⟩

/-! ## France batch pipeline (scripts/src/cowidev/vax/batch/france.py) -/

/-- One row of the French source table after the column rename, the vaccine
still the numeric source code. -/
structure FranceRawRow where
  vaccine : Nat
  date : String
  people_vaccinated : Option Int
  people_fully_vaccinated : Option Int
  total_boosters : Option Int
deriving Repr, DecidableEq

/-- The vaccine_mapping table of france.py. -/
def franceVaccineMapping : List (Nat × String) :=
  [(1, "Pfizer/BioNTech"), (2, "Moderna"), (3, "Oxford/AstraZeneca"), (4, "Johnson&Johnson")]

/-- The one_dose_vaccines list of france.py. -/
def franceOneDose : List String := ["Johnson&Johnson"]

/-- A pandas greater-than-zero on a nullable column: false on a missing
value. -/
def posOpt : Option Int → Bool
  | some v => decide (0 < v)
  | none => false

/-- France main, filter line: keep rows whose vaccine code is a mapping key
and whose people_vaccinated is positive. -/
def france_filter (rows : List FranceRawRow) : List FranceRawRow :=
  rows.filter (fun r =>
    (franceVaccineMapping.map Prod.fst).contains r.vaccine && posOpt r.people_vaccinated)

/-- France main, assert line: the surviving vaccine codes are exactly the
mapping keys. -/
def france_codes_ok (rows : List FranceRawRow) : Bool :=
  (franceVaccineMapping.map Prod.fst).all
      (fun k => ((rows.map FranceRawRow.vaccine).dedup).contains k) &&
    ((rows.map FranceRawRow.vaccine).dedup).all
      (fun v => (franceVaccineMapping.map Prod.fst).contains v)

/-- One row of the French table after the code-to-name replacement. -/
structure FranceRow where
  vaccine : String
  date : String
  people_vaccinated : Option Int
  people_fully_vaccinated : Option Int
  total_boosters : Option Int
deriving Repr, DecidableEq

/-- Replace the numeric vaccine code by its canonical name; an unmapped code
keeps its textual form, as Series.replace would keep the original value. -/
def france_replace (r : FranceRawRow) : FranceRow :=
  ⟨((franceVaccineMapping.find? (fun p => p.1 = r.vaccine)).map Prod.snd).getD (toString r.vaccine),
    r.date, r.people_vaccinated, r.people_fully_vaccinated, r.total_boosters⟩

/-- France main, filter-assert-replace block: drop rows with unmapped codes
or non-positive first-dose counts, assert the remaining code set equals the
mapping keys, then map codes to canonical names. -/
def france_vaccine_step (rows : List FranceRawRow) : Except String (List FranceRow) :=
  if france_codes_ok (france_filter rows) then
    Except.ok ((france_filter rows).map france_replace)
  else Except.error "AssertionError"

/-- One row of the French table after the total_vaccinations assignment. -/
structure FranceRowT where
  vaccine : String
  date : String
  people_vaccinated : Option Int
  people_fully_vaccinated : Option Int
  total_boosters : Option Int
  total_vaccinations : Option Int
deriving Repr, DecidableEq

/-- France main, total line: total_vaccinations is the sum of the three dose
columns, missing when any of them is missing. -/
def france_add_total (rows : List FranceRow) : List FranceRowT :=
  rows.map (fun r =>
    ⟨r.vaccine, r.date, r.people_vaccinated, r.people_fully_vaccinated, r.total_boosters,
      match r.people_vaccinated, r.people_fully_vaccinated, r.total_boosters with
      | some a, some b, some c => some (a + b + c)
      | _, _, _ => none⟩)

/-- France main, one-dose inference line: rows whose vaccine is a one-dose
product get people_fully_vaccinated overwritten with people_vaccinated; all
other rows and fields are untouched. -/
def france_infer_fully (rows : List FranceRowT) : List FranceRowT :=
  rows.map (fun r =>
    if franceOneDose.contains r.vaccine then
      { r with people_fully_vaccinated := r.people_vaccinated }
    else r)

/-- Concrete French input for the C3 counterexample: the four known codes
plus an unknown code 99, all with positive first-dose counts. -/
def franceRowsC3 : List FranceRawRow :=
  [⟨1, "2021-06-01", some 10, some 5, some 1⟩,
   ⟨2, "2021-06-01", some 10, some 5, some 1⟩,
   ⟨3, "2021-06-01", some 10, some 5, some 1⟩,
   ⟨4, "2021-06-01", some 10, some 5, some 1⟩,
   ⟨99, "2021-06-01", some 10, some 5, some 1⟩]

/-- Concrete French rows for the C7 witness: a one-dose row with an absent
fully-vaccinated count. -/
def franceRowsC7 : List FranceRowT :=
  [⟨"Johnson&Johnson", "2021-06-01", some 100, none, some 0, none⟩]

/-! ## Hong Kong manufacturer breakdown (scripts/src/cowidev/vax/batch/hong_kong.py) -/

/-- One wide Hong Kong row with the per-manufacturer cumulative columns. -/
structure HKRow where
  location : String
  date : String
  total_pfizer : Option Int
  total_sinovac : Option Int
deriving Repr, DecidableEq

/-- One long-format manufacturer record. -/
structure ManufacturerRecord where
  location : String
  date : String
  vaccine : String
  total_vaccinations : Int
deriving Repr, DecidableEq

/-- hong_kong.manufacturer_pipeline: select the two manufacturer columns,
rename them to canonical vaccine names, and stack to long format; the stack
step drops missing cells and keeps every reported value, zero included. -/
def manufacturer_pipeline (rows : List HKRow) : List ManufacturerRecord :=
  rows.flatMap (fun r =>
    (match r.total_pfizer with
     | some v => [⟨r.location, r.date, "Pfizer/BioNTech", v⟩]
     | none => []) ++
    (match r.total_sinovac with
     | some v => [⟨r.location, r.date, "Sinovac", v⟩]
     | none => []))

/-- Concrete Hong Kong row for C6: Pfizer reported 100, Sinovac reported
zero. -/
def hkRowEx : HKRow := ⟨"Hong Kong", "2021-03-01", some 100, some 0⟩

/-! ## Jordan and Japan incremental readers -/

/-- The Jordan scraped pair of counts. -/
structure JordanSeries where
  people_vaccinated : Int
  people_fully_vaccinated : Int
deriving Repr, DecidableEq

/-- The Jordan data after pipe_vaccinations enriches the total. -/
structure JordanSeriesT where
  people_vaccinated : Int
  people_fully_vaccinated : Int
  total_vaccinations : Int
deriving Repr, DecidableEq

/-- Jordan.pipe_vaccinations: total_vaccinations is the sum of the two dose
counts. -/
def jordan_pipe_vaccinations (d : JordanSeries) : JordanSeriesT :=
  ⟨d.people_vaccinated, d.people_fully_vaccinated,
    d.people_vaccinated + d.people_fully_vaccinated⟩

/-- The triple japan.connect_parse_data reads from the dashboard table. -/
structure JapanData where
  total_vaccinations : Int
  people_vaccinated : Int
  people_fully_vaccinated : Int
deriving Repr, DecidableEq

/-- Numeric core of japan.connect_parse_data: the assert accepts the triple
only when the reported total equals the sum of the two person counts. -/
def japan_parse (total pv pfv : Int) : Except String JapanData :=
  if total = pv + pfv then Except.ok ⟨total, pv, pfv⟩
  else Except.error "AssertionError"

/-! ## Theorems -/

theorem charListLt_irrefl (l : List Char) : charListLt l l = false := by
  induction l with
  | nil => rfl
  | cons a as ih => simp [charListLt, lt_irrefl, ih]

theorem strLt_irrefl (s : String) : strLt s s = false :=
  charListLt_irrefl s.data

theorem upsert_upsert (s : List Observation) (o : Observation) :
    upsert (upsert s o) o = upsert s o := by
  induction s with
  | nil => simp [upsert, strLt_irrefl]
  | cons r rest ih =>
    by_cases h1 : strLt o.date r.date = true
    · simp [upsert, h1, strLt_irrefl]
    · by_cases h2 : o.date = r.date
      · simp [upsert, h1, h2, strLt_irrefl]
      · simp [upsert, h1, h2, ih]

/-- C1: re-merging an observation whose date is already present is a no-op —
if merge s o succeeds with series t, then merging o again into t succeeds and
returns t unchanged. -/
theorem merge_idempotent (s : List Observation) (o : Observation)
    (_hdate : o.date ∈ s.map Observation.date)
    (t : List Observation) (h : merge s o = Except.ok t) :
    merge t o = Except.ok t := by
  by_cases hc : checkAround (upsert s o) o.date = true
  · have ht : t = upsert s o := by
      simp [merge, hc] at h
      exact h.symm
    subst ht
    simp [merge, upsert_upsert, hc]
  · simp [merge, hc] at h

/-- Witness for C1 at a concrete one-element series whose single date is the
date of the incoming observation. -/
theorem merge_idempotent_witness : merge [mergeObsEx] mergeObsEx = Except.ok [mergeObsEx] :=
  merge_idempotent mergeSeriesEx mergeObsEx (by decide) [mergeObsEx] rfl

theorem doseSum_nonneg (recs : List PeruRec) (hn : ∀ r ∈ recs, 0 ≤ r.n_reg)
    (d : String) (k : Nat) : 0 ≤ doseSum recs d k := by
  apply List.sum_nonneg
  intro x hx
  rcases List.mem_map.1 hx with ⟨r, hr, rfl⟩
  exact hn r (List.mem_filter.1 hr).1

theorem peruCum_succ (recs : List PeruRec) (k i : Nat)
    (h : i + 1 < (peruDates recs).length) :
    peruCum recs (i + 1) k =
      peruCum recs i k + doseSum recs ((peruDates recs).get ⟨i + 1, h⟩) k := by
  have hm : i + 1 < ((peruDates recs).map (fun d => doseSum recs d k)).length := by
    simpa using h
  unfold peruCum
  rw [List.map_take, List.map_take, List.sum_take_succ _ (i + 1) hm]
  simp

theorem peruCum_mono (recs : List PeruRec) (hn : ∀ r ∈ recs, 0 ≤ r.n_reg)
    (k i : Nat) (h : i + 1 < (peruDates recs).length) :
    peruCum recs i k ≤ peruCum recs (i + 1) k := by
  rw [peruCum_succ recs k i h]
  have := doseSum_nonneg recs hn ((peruDates recs).get ⟨i + 1, h⟩) k
  omega

theorem peruSeries_length (recs : List PeruRec) :
    (peruSeries recs).length = (peruDates recs).length := by
  simp [peruSeries, pipe_total_vaccinations, pipe_format]

theorem peruSeries_get (recs : List PeruRec) (i : Nat)
    (h : i < (peruSeries recs).length) :
    (peruSeries recs).get ⟨i, h⟩ =
      ⟨(peruDates recs).getD i "", peruCum recs i 1, peruCum recs i 2, peruCum recs i 3,
        peruCum recs i 1 + peruCum recs i 2 + peruCum recs i 3⟩ := by
  simp [peruSeries, pipe_total_vaccinations, pipe_format]

/-- C2: in the Peru cumulative series, provided every source dose count is
non-negative, each cumulative field and the derived total are non-decreasing
between every pair of adjacent dates of the date-ascending output. -/
theorem peru_cumulative_monotone (recs : List PeruRec)
    (hn : ∀ r ∈ recs, 0 ≤ r.n_reg)
    (i : Nat) (h : i + 1 < (peruSeries recs).length) :
    ((peruSeries recs).get ⟨i, by omega⟩).people_vaccinated ≤
        ((peruSeries recs).get ⟨i + 1, h⟩).people_vaccinated ∧
    ((peruSeries recs).get ⟨i, by omega⟩).people_fully_vaccinated ≤
        ((peruSeries recs).get ⟨i + 1, h⟩).people_fully_vaccinated ∧
    ((peruSeries recs).get ⟨i, by omega⟩).total_boosters ≤
        ((peruSeries recs).get ⟨i + 1, h⟩).total_boosters ∧
    ((peruSeries recs).get ⟨i, by omega⟩).total_vaccinations ≤
        ((peruSeries recs).get ⟨i + 1, h⟩).total_vaccinations := by
  have hd : i + 1 < (peruDates recs).length := by
    rw [← peruSeries_length recs]; exact h
  have h1 := peruCum_mono recs hn 1 i hd
  have h2 := peruCum_mono recs hn 2 i hd
  have h3 := peruCum_mono recs hn 3 i hd
  rw [peruSeries_get recs i (by omega), peruSeries_get recs (i + 1) h]
  refine ⟨h1, h2, h3, ?_⟩
  show peruCum recs i 1 + peruCum recs i 2 + peruCum recs i 3 ≤
      peruCum recs (i + 1) 1 + peruCum recs (i + 1) 2 + peruCum recs (i + 1) 3
  omega

/-- Witness for C2 at a concrete four-record Peru input spanning two dates. -/
theorem peru_cumulative_monotone_witness :
    ((peruSeries peruRecsEx).get ⟨0, by decide⟩).people_vaccinated ≤
        ((peruSeries peruRecsEx).get ⟨1, by decide⟩).people_vaccinated ∧
    ((peruSeries peruRecsEx).get ⟨0, by decide⟩).people_fully_vaccinated ≤
        ((peruSeries peruRecsEx).get ⟨1, by decide⟩).people_fully_vaccinated ∧
    ((peruSeries peruRecsEx).get ⟨0, by decide⟩).total_boosters ≤
        ((peruSeries peruRecsEx).get ⟨1, by decide⟩).total_boosters ∧
    ((peruSeries peruRecsEx).get ⟨0, by decide⟩).total_vaccinations ≤
        ((peruSeries peruRecsEx).get ⟨1, by decide⟩).total_vaccinations :=
  peru_cumulative_monotone peruRecsEx (by decide) 0 (by decide)

/-- C9 counterexample: a table whose per-hundred values are all within
bounds is still rejected (location check), so the age pipeline does not pass
data through unchanged whenever no percentage exceeds 100. -/
theorem peru_age_checks_not_pass_through :
    pipe_age_checks "2021-12-31" peruAgeRowsBad = Except.error PeruAgeError.badLocation ∧
    peruAgeRowsBad.any (fun r =>
      gt100 r.people_vaccinated_per_hundred ||
        gt100 r.people_fully_vaccinated_per_hundred) = false :=
  ⟨rfl, rfl⟩

/-- C9 (amended): the age pipeline raises the percentage-bound error exactly
when some per-hundred value exceeds 100 (those checks run first); on an
empty table it crashes at the date check (nan minimum compared to a string)
rather than passing; and it passes the table through unchanged exactly when
the percentages are in bounds, the table is non-empty, the sunday range
check passes, and every location is Peru. -/
theorem peru_age_checks_pct_iff (today : String) (rows : List PeruAgeRow) :
    (pipe_age_checks today rows = Except.error PeruAgeError.pctBound ↔
      ∃ r ∈ rows, gt100 r.people_vaccinated_per_hundred = true ∨
        gt100 r.people_fully_vaccinated_per_hundred = true) ∧
    (pipe_age_checks today rows = Except.ok rows ↔
      (∀ r ∈ rows, gt100 r.people_vaccinated_per_hundred = false ∧
          gt100 r.people_fully_vaccinated_per_hundred = false) ∧
        rows ≠ [] ∧ sundayBad today rows = false ∧
        (∀ r ∈ rows, r.location = "Peru")) := by
  by_cases h1 : rows.any (fun r => gt100 r.people_vaccinated_per_hundred) = true
  · rcases List.any_eq_true.1 h1 with ⟨r, hr, hv⟩
    have hval : pipe_age_checks today rows = Except.error PeruAgeError.pctBound := by
      simp [pipe_age_checks, h1]
    rw [hval]
    constructor
    · exact ⟨fun _ => ⟨r, hr, Or.inl hv⟩, fun _ => rfl⟩
    · constructor
      · intro h
        exact Except.noConfusion h
      · rintro ⟨hall, -, -, -⟩
        exact absurd hv (by simp [(hall r hr).1])
  · by_cases h2 : rows.any (fun r => gt100 r.people_fully_vaccinated_per_hundred) = true
    · rcases List.any_eq_true.1 h2 with ⟨r, hr, hv⟩
      have hval : pipe_age_checks today rows = Except.error PeruAgeError.pctBound := by
        simp [pipe_age_checks, h1, h2]
      rw [hval]
      constructor
      · exact ⟨fun _ => ⟨r, hr, Or.inr hv⟩, fun _ => rfl⟩
      · constructor
        · intro h
          exact Except.noConfusion h
        · rintro ⟨hall, -, -, -⟩
          exact absurd hv (by simp [(hall r hr).2])
    · have hnone : ¬ ∃ r ∈ rows, gt100 r.people_vaccinated_per_hundred = true ∨
          gt100 r.people_fully_vaccinated_per_hundred = true := by
        rintro ⟨r, hr, hv | hv⟩
        · exact h1 (List.any_eq_true.2 ⟨r, hr, hv⟩)
        · exact h2 (List.any_eq_true.2 ⟨r, hr, hv⟩)
      by_cases hemp : rows = []
      · subst hemp
        have hval : pipe_age_checks today [] = Except.error PeruAgeError.typeError := by
          simp [pipe_age_checks]
        rw [hval]
        constructor
        · constructor
          · intro h
            exact absurd h (by simp)
          · intro h
            exact absurd h hnone
        · constructor
          · intro h
            exact Except.noConfusion h
          · rintro ⟨-, hne, -, -⟩
            exact absurd rfl hne
      · by_cases h3 : sundayBad today rows = true
        · have hval : pipe_age_checks today rows = Except.error PeruAgeError.dateRange := by
            simp [pipe_age_checks, h1, h2, hemp, h3]
          rw [hval]
          constructor
          · exact ⟨fun h => absurd h (by simp), fun h => absurd h hnone⟩
          · constructor
            · intro h
              exact Except.noConfusion h
            · rintro ⟨-, -, hsun, -⟩
              exact absurd h3 (by simp [hsun])
        · by_cases h4 : rows.all (fun r => r.location = "Peru") = true
          · have hval : pipe_age_checks today rows = Except.ok rows := by
              simp [pipe_age_checks, h1, h2, hemp, h3, h4]
            rw [hval]
            constructor
            · exact ⟨fun h => absurd h (by simp), fun h => absurd h hnone⟩
            · constructor
              · intro _
                refine ⟨?_, hemp, by simpa using h3, ?_⟩
                · intro r hr
                  constructor
                  · cases hb : gt100 r.people_vaccinated_per_hundred with
                    | false => rfl
                    | true => exact absurd (List.any_eq_true.2 ⟨r, hr, hb⟩) h1
                  · cases hb : gt100 r.people_fully_vaccinated_per_hundred with
                    | false => rfl
                    | true => exact absurd (List.any_eq_true.2 ⟨r, hr, hb⟩) h2
                · intro r hr
                  exact of_decide_eq_true (List.all_eq_true.1 h4 r hr)
              · intro _
                rfl
          · have hval : pipe_age_checks today rows = Except.error PeruAgeError.badLocation := by
              simp [pipe_age_checks, h1, h2, hemp, h3, h4]
            rw [hval]
            constructor
            · exact ⟨fun h => absurd h (by simp), fun h => absurd h hnone⟩
            · constructor
              · intro h
                exact Except.noConfusion h
              · rintro ⟨-, -, -, hloc⟩
                exact absurd
                  (List.all_eq_true.2 (fun r hr => decide_eq_true (hloc r hr))) h4

/-- Witness for C9 at a concrete in-bounds table that passes every check,
and at the empty table, where the modelled pipeline errors rather than
passing. -/
theorem peru_age_checks_pct_iff_witness :
    pipe_age_checks "2021-12-31" peruAgeRowsOk = Except.ok peruAgeRowsOk ∧
    pipe_age_checks "2021-12-31" ([] : List PeruAgeRow) ≠ Except.ok [] :=
  ⟨(peru_age_checks_pct_iff "2021-12-31" peruAgeRowsOk).2.mpr
      ⟨by decide, by decide, by decide, by decide⟩,
    fun h => absurd (((peru_age_checks_pct_iff "2021-12-31" []).2.mp h).2.1) (by simp)⟩

theorem countryDates_nonempty (rows : List WhoRow) (c : String)
    (hc : c ∈ (rows.map WhoRow.country).dedup) :
    1 ≤ (countryDates rows c).length := by
  rcases List.mem_map.1 (List.mem_dedup.1 hc) with ⟨r, hr, rfl⟩
  have hmem : r.date_updated ∈ countryDates rows r.country := by
    apply List.mem_dedup.2
    exact List.mem_map.2 ⟨r, List.mem_filter.2 ⟨hr, by simp⟩, rfl⟩
  exact List.length_pos.2 (List.ne_nil_of_mem hmem)

theorem nodup_all_eq {l : List Nat} {a : Nat} (hn : l.Nodup) (hne : l ≠ [])
    (ha : ∀ x ∈ l, x = a) : l = [a] := by
  cases l with
  | nil => cases hne rfl
  | cons b bs =>
    have hb : b = a := ha b (by simp)
    cases bs with
    | nil => simp [hb]
    | cons c cs =>
      have hc : c = a := ha c (by simp)
      have hbc : b ≠ c := by
        intro h
        exact (List.nodup_cons.1 hn).1 (h ▸ List.mem_cons_self c cs)
      exact absurd (hb.trans hc.symm) hbc

/-- C8 counterexample: the empty feed has neither more than 300 rows nor a
country with two distinct reporting dates, yet pipe_checks rejects it. -/
theorem pipe_checks_rejects_empty :
    pipe_checks ([] : List WhoRow) = Except.error WhoCheckError.multipleDates ∧
    ¬ 300 < ([] : List WhoRow).length ∧
    ¬ ∃ c ∈ (([] : List WhoRow).map WhoRow.country).dedup,
        2 ≤ (countryDates [] c).length := by
  refine ⟨rfl, by decide, ?_⟩
  rintro ⟨c, hc, -⟩
  simp at hc

/-- C8 (amended): pipe_checks passes the batch through unchanged exactly
when the feed has at most 300 rows, is non-empty, and no country carries
two or more distinct reporting dates; in every other case the whole batch is
rejected. -/
theorem pipe_checks_ok_iff (rows : List WhoRow) :
    pipe_checks rows = Except.ok rows ↔
      ¬(300 < rows.length ∨ rows = [] ∨
        ∃ c ∈ (rows.map WhoRow.country).dedup, 2 ≤ (countryDates rows c).length) := by
  have heval : ∀ a : Nat, ¬ 300 < rows.length → (perCountryNunique rows).dedup = [a] →
      pipe_checks rows =
        if a ≠ 1 then Except.error WhoCheckError.multipleDates else Except.ok rows := by
    intro a hlen ha
    unfold pipe_checks
    rw [if_neg hlen, ha]
    simp
  constructor
  · intro hok
    by_cases hlen : 300 < rows.length
    · simp [pipe_checks, hlen] at hok
    · have h1 : (perCountryNunique rows).dedup.length = 1 := by
        by_contra hne
        simp [pipe_checks, hlen, hne] at hok
      rcases List.length_eq_one.1 h1 with ⟨a, ha⟩
      have ha1 : a = 1 := by
        by_contra hne1
        rw [heval a hlen ha, if_pos hne1] at hok
        exact Except.noConfusion hok
      have hall : ∀ x ∈ perCountryNunique rows, x = 1 := by
        intro x hx
        have : x ∈ (perCountryNunique rows).dedup := List.mem_dedup.2 hx
        rw [ha, ha1] at this
        simpa using this
      rintro (h | h | ⟨c, hc, h2⟩)
      · exact hlen h
      · rw [h] at ha
        simp [perCountryNunique] at ha
      · have : (countryDates rows c).length ∈ perCountryNunique rows :=
          List.mem_map.2 ⟨c, hc, rfl⟩
        have := hall _ this
        omega
  · intro hno
    push_neg at hno
    obtain ⟨hlen, hne, hsingle⟩ := hno
    have hall : ∀ x ∈ perCountryNunique rows, x = 1 := by
      intro x hx
      rcases List.mem_map.1 hx with ⟨c, hc, rfl⟩
      have hge := countryDates_nonempty rows c hc
      have hlt := hsingle c hc
      omega
    have hpne : perCountryNunique rows ≠ [] := by
      intro h
      apply hne
      cases hrows : rows with
      | nil => rfl
      | cons r rest =>
        exfalso
        have : r.country ∈ (rows.map WhoRow.country).dedup := by
          rw [hrows]; simp
        have : (countryDates rows r.country).length ∈ perCountryNunique rows :=
          List.mem_map.2 ⟨r.country, this, rfl⟩
        rw [h] at this
        simp at this
    have hdedup : (perCountryNunique rows).dedup = [1] := by
      apply nodup_all_eq (List.nodup_dedup _)
      · intro h
        exact hpne (List.dedup_eq_nil _ |>.1 h)
      · intro x hx
        exact hall x (List.mem_dedup.1 hx)
    rw [heval 1 (by omega) hdedup]
    simp

/-- C4 counterexample: in the first mask the total side is null and the
first-dose side is reported, yet the mask evaluates to false — so the masks
are not true whenever either side of their comparison is null. -/
theorem mask1_false_on_null_total :
    whoRowNullTotal.total_vaccinations = none ∧ mask1 whoRowNullTotal = false :=
  ⟨rfl, rfl⟩

/-- C4 (amended): masks 1 and 2 are true whenever their person-count side is
null but false when the total is null and that side is reported; mask 3 is
true whenever either of its sides is null; a row is kept exactly when it
comes from the REPORTING channel, satisfies all three masks, and carries a
canonical country name. -/
theorem who_masks_null_semantics (r : WhoRow) :
    (r.persons_vaccinated_1plus_dose = none → mask1 r = true) ∧
    (r.total_vaccinations = none → r.persons_vaccinated_1plus_dose ≠ none →
      mask1 r = false) ∧
    (r.persons_fully_vaccinated = none → mask2 r = true) ∧
    (r.total_vaccinations = none → r.persons_fully_vaccinated ≠ none →
      mask2 r = false) ∧
    (r.persons_vaccinated_1plus_dose = none ∨ r.persons_fully_vaccinated = none →
      mask3 r = true) ∧
    (∀ rows countries, r ∈ pipe_filter_entries countries rows ↔
      r ∈ rows ∧ r.data_source = "REPORTING" ∧
        (mask1 r && mask2 r && mask3 r) = true ∧ countries.contains r.country = true) := by
  refine ⟨?_, ?_, ?_, ?_, ?_, ?_⟩
  · intro h
    simp [mask1, h]
  · intro ht hp
    rcases Option.ne_none_iff_exists.1 hp with ⟨v, hv⟩
    simp [mask1, geOpt, ht, ← hv]
  · intro h
    simp [mask2, h]
  · intro ht hp
    rcases Option.ne_none_iff_exists.1 hp with ⟨v, hv⟩
    simp [mask2, geOpt, ht, ← hv]
  · rintro (h | h) <;> simp [mask3, h]
  · intro rows countries
    simp only [pipe_filter_entries, List.mem_filter]
    constructor
    · rintro ⟨⟨⟨hmem, hrep⟩, hmask⟩, hc⟩
      exact ⟨hmem, by simpa using hrep, hmask, hc⟩
    · rintro ⟨hmem, hrep, hmask, hc⟩
      exact ⟨⟨⟨hmem, by simpa using hrep⟩, hmask⟩, hc⟩

/-- Witness for C4 at a concrete row with both person counts null and at a
concrete one-row filter call. -/
theorem who_masks_null_semantics_witness :
    mask1 whoRowNullPersons = true ∧ mask2 whoRowNullPersons = true ∧
    mask3 whoRowNullPersons = true ∧
    (whoRowNullPersons ∈ pipe_filter_entries ["France"] [whoRowNullPersons] ↔
      whoRowNullPersons ∈ [whoRowNullPersons] ∧
        whoRowNullPersons.data_source = "REPORTING" ∧
        (mask1 whoRowNullPersons && mask2 whoRowNullPersons && mask3 whoRowNullPersons) = true ∧
        (["France"] : List String).contains whoRowNullPersons.country = true) :=
  ⟨(who_masks_null_semantics whoRowNullPersons).1 rfl,
    (who_masks_null_semantics whoRowNullPersons).2.2.1 rfl,
    (who_masks_null_semantics whoRowNullPersons).2.2.2.2.1 (Or.inl rfl),
    (who_masks_null_semantics whoRowNullPersons).2.2.2.2.2 [whoRowNullPersons] ["France"]⟩

/-- C5 counterexample: for Gambia the WHO feed lists only a two-dose
product, the override table adds the one-dose Johnson&Johnson, and the code
still reports only_2doses as true — while the overridden vaccine set does
contain a one-dose product. -/
theorem map_vaccines_flag_ignores_overrides :
    map_vaccines_func whoVaxMappingEx oneDoseEx additionalVaccinesUsed "Gambia"
        (some "Pfizer BioNTech - Comirnaty") =
      some ("Johnson&Johnson, Pfizer/BioNTech", true) ∧
    only2doses oneDoseEx
        (overriddenVaccines whoVaxMappingEx additionalVaccinesUsed "Gambia"
          "Pfizer BioNTech - Comirnaty") = false :=
  ⟨rfl, rfl⟩

/-- C5 (amended): the only_2doses flag is computed from the replaced feed
list before the manual overrides are unioned in, while the rendered vaccine
names do include the overrides; a null cell yields the Python error,
modelled as none. -/
theorem map_vaccines_func_order (mapping : List (String × String))
    (oneDose : List String) (overrides : List (String × List String))
    (country : String) (s : String) :
    map_vaccines_func mapping oneDose overrides country (some s) =
      some (String.intercalate ", "
          (sortStrings (overriddenVaccines mapping overrides country s).dedup),
        only2doses oneDose (replaceTokens mapping (splitComma s))) ∧
    map_vaccines_func mapping oneDose overrides country none = none := by
  constructor
  · unfold map_vaccines_func overriddenVaccines
    cases overrides.find? (fun p => p.1 = country) with
    | none => rfl
    | some p => rfl
  · rfl

/-- C3 counterexample: the French pipeline receives a row with the unknown
vaccine code 99 alongside the four known codes; the claim requires a
failure naming the unknown token, but the run succeeds and the unknown row
is silently dropped from the output. -/
theorem france_silently_drops_unknown :
    (franceVaccineMapping.map Prod.fst).contains 99 = false ∧
    (∃ r ∈ franceRowsC3, r.vaccine = 99) ∧
    france_vaccine_step franceRowsC3 =
      Except.ok
        [⟨"Pfizer/BioNTech", "2021-06-01", some 10, some 5, some 1⟩,
         ⟨"Moderna", "2021-06-01", some 10, some 5, some 1⟩,
         ⟨"Oxford/AstraZeneca", "2021-06-01", some 10, some 5, some 1⟩,
         ⟨"Johnson&Johnson", "2021-06-01", some 10, some 5, some 1⟩] := by
  refine ⟨rfl, ⟨⟨99, "2021-06-01", some 10, some 5, some 1⟩, by decide, rfl⟩, rfl⟩

/-- C3 (amended): the WHO check fails carrying exactly the unknown tokens
iff some mentioned token is absent from the mapping, and passes the rows
through unchanged otherwise (given at least one non-null vaccine cell); the
French pipeline instead silently drops rows with unmapped vaccine codes —
every surviving row has a mapped code, and its assertion fires iff the
surviving code set differs from the mapping keys. -/
theorem vaccine_resolution_amended (mapping : List (String × String))
    (rows : List WhoRow) (hne : rows.filterMap WhoRow.vaccines_used ≠ [])
    (frows : List FranceRawRow) :
    (pipe_vaccine_checks mapping rows =
        Except.error (WhoVaxError.unknown (whoUnknown mapping rows)) ↔
      whoUnknown mapping rows ≠ []) ∧
    (pipe_vaccine_checks mapping rows = Except.ok rows ↔
      whoUnknown mapping rows = []) ∧
    (whoUnknown mapping rows ≠ [] ↔
      ∃ t ∈ whoTokens rows, (lookupRaw mapping t).isNone = true) ∧
    (∀ r ∈ france_filter frows,
      (franceVaccineMapping.map Prod.fst).contains r.vaccine = true) ∧
    (france_vaccine_step frows = Except.ok ((france_filter frows).map france_replace) ↔
      france_codes_ok (france_filter frows) = true) := by
  refine ⟨?_, ?_, ?_, ?_, ?_⟩
  · by_cases h : whoUnknown mapping rows = []
    · simp [pipe_vaccine_checks, hne, h]
    · simp [pipe_vaccine_checks, hne, h]
  · by_cases h : whoUnknown mapping rows = []
    · simp [pipe_vaccine_checks, hne, h]
    · simp [pipe_vaccine_checks, hne, h]
  · constructor
    · intro h
      rcases List.exists_mem_of_ne_nil _ h with ⟨t, ht⟩
      have hm := List.mem_filter.1 ht
      exact ⟨t, List.mem_dedup.1 hm.1, hm.2⟩
    · rintro ⟨t, ht, hp⟩
      exact List.ne_nil_of_mem (List.mem_filter.2 ⟨List.mem_dedup.2 ht, hp⟩)
  · intro r hr
    have hc := (List.mem_filter.1 hr).2
    rw [Bool.and_eq_true] at hc
    exact hc.1
  · by_cases h : france_codes_ok (france_filter frows) = true
    · simp [france_vaccine_step, h]
    · simp [france_vaccine_step, h]

/-- Witness for C3 at the spec example: mapping knows PFIZER only, the feed
mentions PFIZER and MODERNA, and the check fails naming exactly MODERNA. -/
theorem vaccine_resolution_amended_witness :
    pipe_vaccine_checks whoMappingEx [whoRowVaxEx] =
      Except.error (WhoVaxError.unknown (whoUnknown whoMappingEx [whoRowVaxEx])) ∧
    whoUnknown whoMappingEx [whoRowVaxEx] = ["MODERNA"] :=
  ⟨((vaccine_resolution_amended whoMappingEx [whoRowVaxEx] (by decide) []).1).mpr
      (by decide),
    rfl⟩

/-- C6 counterexample: a wide row with Pfizer 100 and Sinovac 0 emits two
records, the Sinovac zero included — a zero cell is not treated as
unreported. -/
theorem manufacturer_pipeline_keeps_zero :
    manufacturer_pipeline [hkRowEx] =
      [⟨"Hong Kong", "2021-03-01", "Pfizer/BioNTech", 100⟩,
       ⟨"Hong Kong", "2021-03-01", "Sinovac", 0⟩] ∧
    (manufacturer_pipeline [hkRowEx]).length = 2 :=
  ⟨rfl, rfl⟩

/-- C6 (amended): the extractor omits only missing cells: every emitted
record comes from a non-null cell of some input row carrying that exact
value, and every non-null cell — a zero included — yields its record. -/
theorem manufacturer_pipeline_cells (rows : List HKRow) :
    (∀ rec ∈ manufacturer_pipeline rows, ∃ r ∈ rows,
      rec.location = r.location ∧ rec.date = r.date ∧
        ((rec.vaccine = "Pfizer/BioNTech" ∧ r.total_pfizer = some rec.total_vaccinations) ∨
         (rec.vaccine = "Sinovac" ∧ r.total_sinovac = some rec.total_vaccinations))) ∧
    (∀ r ∈ rows, ∀ v : Int, r.total_pfizer = some v →
      (⟨r.location, r.date, "Pfizer/BioNTech", v⟩ : ManufacturerRecord) ∈
        manufacturer_pipeline rows) ∧
    (∀ r ∈ rows, ∀ v : Int, r.total_sinovac = some v →
      (⟨r.location, r.date, "Sinovac", v⟩ : ManufacturerRecord) ∈
        manufacturer_pipeline rows) := by
  refine ⟨?_, ?_, ?_⟩
  · intro rec hrec
    rcases List.mem_flatMap.1 hrec with ⟨r, hr, hin⟩
    refine ⟨r, hr, ?_⟩
    rcases List.mem_append.1 hin with h | h
    · cases hp : r.total_pfizer with
      | none => rw [hp] at h; simp at h
      | some v =>
        rw [hp] at h
        have h' : rec = ⟨r.location, r.date, "Pfizer/BioNTech", v⟩ := by simpa using h
        subst h'
        refine ⟨rfl, rfl, Or.inl ⟨rfl, ?_⟩⟩
        simpa using hp
    · cases hp : r.total_sinovac with
      | none => rw [hp] at h; simp at h
      | some v =>
        rw [hp] at h
        have h' : rec = ⟨r.location, r.date, "Sinovac", v⟩ := by simpa using h
        subst h'
        refine ⟨rfl, rfl, Or.inr ⟨rfl, ?_⟩⟩
        simpa using hp
  · intro r hr v hv
    refine List.mem_flatMap.2 ⟨r, hr, ?_⟩
    rw [hv]
    simp
  · intro r hr v hv
    refine List.mem_flatMap.2 ⟨r, hr, ?_⟩
    rw [hv]
    cases r.total_pfizer <;> simp

/-- Witness for C6: the concrete zero-valued Sinovac cell produces its
record. -/
theorem manufacturer_pipeline_cells_witness :
    (⟨"Hong Kong", "2021-03-01", "Sinovac", (0 : Int)⟩ : ManufacturerRecord) ∈
      manufacturer_pipeline [hkRowEx] :=
  (manufacturer_pipeline_cells [hkRowEx]).2.2 hkRowEx (by decide) 0 rfl

/-- C7: the French one-dose inference rewrites exactly the
people_fully_vaccinated field of one-dose rows to the row people_vaccinated
value — so an absent count becomes the reported first-dose count — and
leaves every other row and every other field, absent ones included,
untouched. -/
theorem france_one_dose_inference (rows : List FranceRowT) (i : Nat)
    (h : i < rows.length) (h2 : i < (france_infer_fully rows).length) :
    (franceOneDose.contains (rows.get ⟨i, h⟩).vaccine = true →
      (france_infer_fully rows).get ⟨i, h2⟩ =
        { rows.get ⟨i, h⟩ with
            people_fully_vaccinated := (rows.get ⟨i, h⟩).people_vaccinated }) ∧
    (franceOneDose.contains (rows.get ⟨i, h⟩).vaccine = false →
      (france_infer_fully rows).get ⟨i, h2⟩ = rows.get ⟨i, h⟩) := by
  have hg : (france_infer_fully rows).get ⟨i, h2⟩ =
      (if franceOneDose.contains (rows.get ⟨i, h⟩).vaccine then
        { rows.get ⟨i, h⟩ with
            people_fully_vaccinated := (rows.get ⟨i, h⟩).people_vaccinated }
      else rows.get ⟨i, h⟩) := by
    show (List.map _ rows).get ⟨i, h2⟩ = _
    simp [List.get_map]
  constructor
  · intro hc
    rw [hg, if_pos hc]
  · intro hc
    have hnc : ¬ (franceOneDose.contains (rows.get ⟨i, h⟩).vaccine = true) := by
      simpa using hc
    rw [hg, if_neg hnc]

/-- Witness for C7 at a concrete Johnson&Johnson row whose fully-vaccinated
count is absent and whose first-dose count is 100. -/
theorem france_one_dose_inference_witness :
    (france_infer_fully franceRowsC7).get ⟨0, by decide⟩ =
      { franceRowsC7.get ⟨0, by decide⟩ with
          people_fully_vaccinated := (franceRowsC7.get ⟨0, by decide⟩).people_vaccinated } :=
  (france_one_dose_inference franceRowsC7 0 (by decide) (by decide)).1 rfl

/-- C10: wherever a pipeline derives total_vaccinations it is exactly the
sum of the per-dose cumulative counts — Jordan first plus second dose, Peru
and France all three dose columns, and the Japan reader accepts a reported
total only when it equals the sum of the two person counts. -/
theorem total_vaccinations_sum :
    (∀ d : JordanSeries, (jordan_pipe_vaccinations d).total_vaccinations =
        d.people_vaccinated + d.people_fully_vaccinated) ∧
    (∀ recs : List PeruRec, ∀ row ∈ peruSeries recs,
      row.total_vaccinations =
        row.people_vaccinated + row.people_fully_vaccinated + row.total_boosters) ∧
    (∀ rows : List FranceRow, ∀ r ∈ france_add_total rows, ∀ a b c : Int,
      r.people_vaccinated = some a → r.people_fully_vaccinated = some b →
        r.total_boosters = some c → r.total_vaccinations = some (a + b + c)) ∧
    (∀ t p f : Int, ∀ d : JapanData, japan_parse t p f = Except.ok d →
      d.total_vaccinations = d.people_vaccinated + d.people_fully_vaccinated) := by
  refine ⟨fun d => rfl, ?_, ?_, ?_⟩
  · intro recs row hrow
    rcases List.mem_map.1 hrow with ⟨q, hq, rfl⟩
    rfl
  · intro rows r hr a b c ha hb hc
    rcases List.mem_map.1 hr with ⟨q, hq, rfl⟩
    simp only at ha hb hc
    simp [ha, hb, hc]
  · intro t p f d hd
    unfold japan_parse at hd
    by_cases h : t = p + f
    · rw [if_pos h] at hd
      cases hd
      exact h
    · rw [if_neg h] at hd
      exact Except.noConfusion hd

/-- Witness for C10 at concrete Jordan, Peru, France and Japan inputs. -/
theorem total_vaccinations_sum_witness :
    (jordan_pipe_vaccinations ⟨60, 40⟩).total_vaccinations = 60 + 40 ∧
    (⟨"2021-02-01", 3, 2, 0, 5⟩ : PeruRowT).total_vaccinations = 3 + 2 + 0 ∧
    (⟨"Moderna", "2021-06-01", some 10, some 5, some 1, some 16⟩ : FranceRowT).total_vaccinations
        = some (10 + 5 + 1) ∧
    (⟨100, 60, 40⟩ : JapanData).total_vaccinations =
      (⟨100, 60, 40⟩ : JapanData).people_vaccinated +
        (⟨100, 60, 40⟩ : JapanData).people_fully_vaccinated :=
  ⟨total_vaccinations_sum.1 ⟨60, 40⟩,
    total_vaccinations_sum.2.1 peruRecsEx ⟨"2021-02-01", 3, 2, 0, 5⟩ (by decide),
    total_vaccinations_sum.2.2.1 [⟨"Moderna", "2021-06-01", some 10, some 5, some 1⟩]
      ⟨"Moderna", "2021-06-01", some 10, some 5, some 1, some 16⟩ (by decide) 10 5 1 rfl rfl rfl,
    total_vaccinations_sum.2.2.2 100 60 40 ⟨100, 60, 40⟩ rfl⟩

/-- Witness for C8 at a concrete one-row feed that passes the shape
checks. -/
theorem pipe_checks_ok_iff_witness :
    pipe_checks [whoRowNullTotal] = Except.ok [whoRowNullTotal] :=
  (pipe_checks_ok_iff [whoRowNullTotal]).mpr (by decide)

/-- Witness for C5 at the WHO mapping example: a null vaccine cell is the
error case. -/
theorem map_vaccines_func_order_witness :
    map_vaccines_func whoVaxMappingEx oneDoseEx additionalVaccinesUsed "Gambia" none = none :=
  (map_vaccines_func_order whoVaxMappingEx oneDoseEx additionalVaccinesUsed "Gambia" "").2
